import Mathlib

set_option autoImplicit false

/-!
# Verification of the Rettiwt-API request/response core

A shallow embedding of `src/services/FetcherService.ts` — the outbound
request/response pipeline of the repository — together with models of the
collaborators the file uses (`findByFilter` from the JSON helper, the
`EHttpStatus` enumeration, the `CursoredData` wrapper and the resource-kind
enumeration), and proofs of the behavioural properties claimed by the design
specification.

JSON values are embedded as a closed inductive tree (objects, arrays and
scalars); machine-level representation of numbers is irrelevant here, since
the pipeline only ever compares scalars for equality and JavaScript
truthiness.
-/

/-- A parsed JSON value: the raw response tree the pipeline consumes.
Objects keep their fields in document order. -/
inductive Json where
  | null : Json
  | bool : Bool → Json
  | num : Int → Json
  | str : String → Json
  | arr : List Json → Json
  | obj : List (String × Json) → Json

/-- Field lookup inside an object's field list (first occurrence; parsed
JavaScript objects hold each key at most once). -/
def getField : List (String × Json) → String → Option Json
  | [], _ => none
  | (k, v) :: rest, key => if k = key then some v else getField rest key

/-- JavaScript `field == value` against a string discriminator value: true
exactly when the field is present and is that string (a missing field is
`undefined`, and no non-string JSON scalar is loosely equal to a non-numeric
string such as a type tag). -/
def isStrField : Option Json → String → Bool
  | some (.str s), v => s == v
  | _, _ => false

/-- `node[key] == value` for a string discriminator value: true exactly on an
object node whose `key` field is the string `value`. -/
def isMatch (j : Json) (key value : String) : Bool :=
  match j with
  | .obj fields => isStrField (getField fields key) value
  | _ => false

mutual

/-- Modelled from the spec: `findByFilter` of `src/helper/JsonUtils.ts` is not
among the repository files available, so the Tree Extractor is defined from
§4.3 of the specification: traverse the tree recursively; at an object node
first test `key == value` and emit the node if it matches, then recurse into
every field's value regardless of the match; at an array node recurse into
every element in order; a scalar contributes nothing. Emission order is
depth-first pre-order, left to right. -/
def findByFilter (j : Json) (key value : String) : List Json :=
  match j with
  | .obj fields =>
      (if isStrField (getField fields key) value then [Json.obj fields] else [])
        ++ findInFields fields key value
  | .arr elems => findInElems elems key value
  | _ => []

/-- Traversal of an object's field values, in document order. -/
def findInFields (fs : List (String × Json)) (key value : String) : List Json :=
  match fs with
  | [] => []
  | (_, v) :: rest => findByFilter v key value ++ findInFields rest key value

/-- Traversal of an array's elements, in order. -/
def findInElems (es : List Json) (key value : String) : List Json :=
  match es with
  | [] => []
  | e :: rest => findByFilter e key value ++ findInElems rest key value

end

mutual

/-- All object nodes of a tree in depth-first pre-order, left to right —
the reference traversal order against which the extractor is checked. -/
def preorderObjs (j : Json) : List Json :=
  match j with
  | .obj fields => Json.obj fields :: preorderObjsFields fields
  | .arr elems => preorderObjsElems elems
  | _ => []

/-- Pre-order object nodes below an object's fields, in document order. -/
def preorderObjsFields (fs : List (String × Json)) : List Json :=
  match fs with
  | [] => []
  | (_, v) :: rest => preorderObjs v ++ preorderObjsFields rest

/-- Pre-order object nodes below an array's elements, in order. -/
def preorderObjsElems (es : List Json) : List Json :=
  match es with
  | [] => []
  | e :: rest => preorderObjs e ++ preorderObjsElems rest

end

/-- Field lookup on an arbitrary node: `none` off an object, mirroring
JavaScript's `undefined` for property access used by `[0]?.value`. -/
def Json.getF : Json → String → Option Json
  | .obj fields, key => getField fields key
  | _, _ => none

/-- JavaScript truthiness of a JSON value, as tested by `res.data ? true :
false`: `null`, `false`, `0` and `""` are falsy; every object and array
(empty or not) and every other scalar is truthy. -/
def truthy : Json → Bool
  | .null => false
  | .bool b => b
  | .num n => n ≠ 0
  | .str s => s ≠ ""
  | .arr _ => true
  | .obj _ => true

/-- An HTTP response as the transport delivers it: a numeric status code and
the parsed body (`AxiosResponse` in the source). -/
structure AxiosResponse where
  status : Nat
  data : Json

/-- Modelled from the spec: the `EHttpStatus` enumeration of
`src/enums/HTTP.ts` is not among the repository files available, so the fixed
status table is defined from §4.2/§6 of the specification: a fixed mapping
from a closed set of numeric status codes to named failure reasons
(unauthorized, forbidden, not-found, rate-limited, server-error). A numeric
TypeScript enum answers `code in EHttpStatus` exactly when the code is one of
its values, and `EHttpStatus[code]` is then the member's name. -/
def EHttpStatus : Nat → Option String
  | 401 => some "UNAUTHORIZED"
  | 403 => some "FORBIDDEN"
  | 404 => some "NOT_FOUND"
  | 429 => some "TOO_MANY_REQUESTS"
  | 500 => some "INTERNAL_SERVER_ERROR"
  | _ => none

/-- A failure a call can surface: a transport-level error (network/timeout,
no response obtained) or a thrown status-classification error carrying the
reason string of the table. -/
inductive Failure where
  | transport : String → Failure
  | status : String → Failure
deriving DecidableEq, Repr

/-- `handleHTTPError` of `FetcherService.ts`: throw the table's named reason
when the status is not 200 *and* is a key of `EHttpStatus`; otherwise return
the received response unchanged. -/
def handleHTTPError (res : AxiosResponse) : Except Failure AxiosResponse :=
  if res.status ≠ 200 ∧ (EHttpStatus res.status).isSome then
    Except.error (Failure.status ((EHttpStatus res.status).getD ""))
  else
    Except.ok res

/-- Modelled from the spec: the `EResourceType` enumeration comes from the
external `rettiwt-core` package; the spec (§4.4, glossary) names the three
tweet-shaped kinds and leaves the rest user-shaped, so the enumeration is
closed over the kinds the spec mentions. -/
inductive EResourceType where
  | TWEET_DETAILS
  | TWEET_SEARCH
  | USER_LIKES
  | USER_DETAILS
  | USER_FOLLOWING
  | USER_FOLLOWERS
  | USER_TWEETS
  | TWEET_FAVORITE
  | TWEET_RETWEET
deriving DecidableEq, Repr

/-- The entity discriminator `extractData` selects for a resource kind: the
branch condition of lines 100–110 of `FetcherService.ts`. -/
def entityDiscriminator (type : EResourceType) : String :=
  if type = EResourceType.TWEET_DETAILS ∨ type = EResourceType.TWEET_SEARCH ∨
      type = EResourceType.USER_LIKES then "Tweet" else "User"

/-- Modelled from the spec: the `CursoredData` wrapper of
`src/models/CursoredData.ts` is not among the repository files available; per
§3 it pairs the ordered entity sequence with the optional next-page cursor,
entity construction being a pass-through conversion of the matched raw
nodes. -/
structure CursoredData where
  list : List Json
  next : Option Json

/-- `extractData` of `FetcherService.ts`: choose the discriminator by resource
kind, collect the matching entity nodes, and take
`findByFilter(data, 'cursorType', 'Bottom')[0]?.value` as the cursor. -/
def extractData (data : Json) (type : EResourceType) : CursoredData :=
  let required : List Json :=
    if type = EResourceType.TWEET_DETAILS ∨ type = EResourceType.TWEET_SEARCH ∨
        type = EResourceType.USER_LIKES then
      findByFilter data "__typename" "Tweet"
    else
      findByFilter data "__typename" "User"
  { list := required
    next := ((findByFilter data "cursorType" "Bottom").head?).bind
      (fun n => Json.getF n "value") }

/-- One transport outcome: what a single `axios(axiosRequest)` call yields —
either a transport error message (the promise rejects) or a response. The
oracle maps each successive outbound call (by its index) to its outcome. -/
def Oracle : Type := Nat → Except String AxiosResponse

/-- `request` of `FetcherService.ts`: issue exactly one transport call — the
counter `n` is the number of outbound calls made so far and increases by one —
then hand the response to `handleHTTPError`; a rejected promise propagates as
a transport failure. Returns the call's result with the new counter. -/
def request (oracle : Oracle) (n : Nat) : Except Failure AxiosResponse × Nat :=
  (match oracle n with
   | .error e => .error (.transport e)
   | .ok res => handleHTTPError res, n + 1)

/-- `fetch` of `FetcherService.ts`: dispatch via `request`, then take the
body (`res.data`) and normalize it through `extractData`. Failures of the
dispatch propagate unchanged. -/
def fetch (oracle : Oracle) (type : EResourceType) (n : Nat) :
    Except Failure CursoredData × Nat :=
  match request oracle n with
  | (.error e, n') => (.error e, n')
  | (.ok res, n') => (.ok (extractData res.data type), n')

/-- `post` of `FetcherService.ts`: dispatch via `request` and report
`res.data ? true : false`; the body is not normalized. Failures of the
dispatch propagate unchanged. -/
def post (oracle : Oracle) (n : Nat) : Except Failure Bool × Nat :=
  match request oracle n with
  | (.error e, n') => (.error e, n')
  | (.ok res, n') => (.ok (truthy res.data), n')

/-- The worked entity-extraction example of the specification (§8): the tree
`{a: {__typename: "Tweet", id: 1}, b: [{__typename: "User", id: 2},
{__typename: "Tweet", id: 3}]}`. -/
def exTree : Json :=
  Json.obj [("a", Json.obj [("__typename", Json.str "Tweet"), ("id", Json.num 1)]),
    ("b", Json.arr [Json.obj [("__typename", Json.str "User"), ("id", Json.num 2)],
      Json.obj [("__typename", Json.str "Tweet"), ("id", Json.num 3)]])]

/-- The worked cursor-extraction example of the specification (§8): a response
holding the cursor nodes `[{cursorType: "Top", value: "X"}, {cursorType:
"Bottom", value: "Y"}]`. -/
def cursorEx : Json :=
  Json.arr [Json.obj [("cursorType", Json.str "Top"), ("value", Json.str "X")],
    Json.obj [("cursorType", Json.str "Bottom"), ("value", Json.str "Y")]]

/-- A response body holding a single bottom-cursor node and no entity node at
all: no `__typename` field occurs anywhere in it. -/
def cursorOnlyTree : Json :=
  Json.obj [("cursorType", Json.str "Bottom"), ("value", Json.str "X")]

mutual

theorem findByFilter_eq_filter : ∀ (j : Json) (key value : String),
    findByFilter j key value = (preorderObjs j).filter (fun n => isMatch n key value)
  | .null, _, _ => by simp [findByFilter, preorderObjs]
  | .bool _, _, _ => by simp [findByFilter, preorderObjs]
  | .num _, _, _ => by simp [findByFilter, preorderObjs]
  | .str _, _, _ => by simp [findByFilter, preorderObjs]
  | .arr es, key, value => by
      rw [findByFilter, preorderObjs, findInElems_eq_filter es key value]
  | .obj fs, key, value => by
      rw [findByFilter, preorderObjs, List.filter_cons,
        findInFields_eq_filter fs key value]
      by_cases h : isStrField (getField fs key) value <;> simp [isMatch, h]

theorem findInFields_eq_filter : ∀ (fs : List (String × Json)) (key value : String),
    findInFields fs key value = (preorderObjsFields fs).filter (fun n => isMatch n key value)
  | [], _, _ => by simp [findInFields, preorderObjsFields]
  | (k, v) :: rest, key, value => by
      rw [findInFields, preorderObjsFields, List.filter_append,
        findByFilter_eq_filter v key value, findInFields_eq_filter rest key value]

theorem findInElems_eq_filter : ∀ (es : List Json) (key value : String),
    findInElems es key value = (preorderObjsElems es).filter (fun n => isMatch n key value)
  | [], _, _ => by simp [findInElems, preorderObjsElems]
  | e :: rest, key, value => by
      rw [findInElems, preorderObjsElems, List.filter_append,
        findByFilter_eq_filter e key value, findInElems_eq_filter rest key value]

end

theorem findByFilter_head?_find? (j : Json) (key value : String) :
    (findByFilter j key value).head? =
      (preorderObjs j).find? (fun n => isMatch n key value) := by
  rw [findByFilter_eq_filter, List.filter_head?]

theorem extractData_list (data : Json) (t : EResourceType) :
    (extractData data t).list = findByFilter data "__typename" (entityDiscriminator t) := by
  by_cases h : t = EResourceType.TWEET_DETAILS ∨ t = EResourceType.TWEET_SEARCH ∨
      t = EResourceType.USER_LIKES <;>
    simp [extractData, entityDiscriminator, h]

theorem extractData_next (data : Json) (t : EResourceType) :
    (extractData data t).next =
      ((preorderObjs data).find? (fun n => isMatch n "cursorType" "Bottom")).bind
        (fun n => Json.getF n "value") := by
  simp [extractData, findByFilter_head?_find?]

/-- C1: the claim states that a response whose status is neither 200 nor a key
of the fixed status table fails with a generic "unexpected status" reason and
that the classifier never passes a non-success status through. The code does
the opposite: `handleHTTPError` only throws when the status is *both* non-200
*and* a key of `EHttpStatus`, so a non-success code outside the table — here
999 — is returned as a successful response, contradicting the function's own
comment ("if the status code is not 200 ... throwing error"). -/
theorem handleHTTPError_passes_unmapped_status :
    handleHTTPError ⟨999, Json.null⟩ = Except.ok ⟨999, Json.null⟩ ∧
    EHttpStatus 999 = none ∧ (999 : Nat) ≠ 200 :=
  ⟨rfl, rfl, by decide⟩

/-- C2: for every JSON tree and discriminator pair, the Tree Extractor returns
exactly the object nodes carrying `key == value`, in depth-first pre-order
left-to-right traversal order — the filter of the pre-order node listing, so
nested matches are included and nothing is deduplicated or reordered — and on
the specification's worked example it yields the two Tweet nodes in document
order. -/
theorem findByFilter_matches_preorder :
    (∀ (j : Json) (key value : String),
      findByFilter j key value = (preorderObjs j).filter (fun n => isMatch n key value)) ∧
    findByFilter exTree "__typename" "Tweet" =
      [Json.obj [("__typename", Json.str "Tweet"), ("id", Json.num 1)],
       Json.obj [("__typename", Json.str "Tweet"), ("id", Json.num 3)]] :=
  ⟨findByFilter_eq_filter, rfl⟩

/-- C3: the resource-kind to entity-discriminator classification is a pure
total function into {"Tweet", "User"}: `extractData` selects exactly
`entityDiscriminator`, which maps TWEET_DETAILS, TWEET_SEARCH and USER_LIKES
to "Tweet" and every other resource kind to "User". -/
theorem extractData_discriminator_classification :
    (∀ (data : Json) (t : EResourceType),
      (extractData data t).list = findByFilter data "__typename" (entityDiscriminator t)) ∧
    (∀ t : EResourceType, entityDiscriminator t = "Tweet" ∨ entityDiscriminator t = "User") ∧
    (∀ t : EResourceType, entityDiscriminator t = "Tweet" ↔
      (t = EResourceType.TWEET_DETAILS ∨ t = EResourceType.TWEET_SEARCH ∨
        t = EResourceType.USER_LIKES)) ∧
    (∀ t : EResourceType,
      ¬(t = EResourceType.TWEET_DETAILS ∨ t = EResourceType.TWEET_SEARCH ∨
        t = EResourceType.USER_LIKES) → entityDiscriminator t = "User") :=
  ⟨extractData_list, by intro t; cases t <;> simp [entityDiscriminator],
    by intro t; cases t <;> simp [entityDiscriminator],
    by intro t; cases t <;> simp [entityDiscriminator]⟩

/-- C4: the extracted pagination cursor is the `value` field of the *first*
node in traversal order whose `cursorType` field is "Bottom" (later such nodes
are ignored, and the cursor is absent when no such node or no `value` field
exists), and on the specification's worked example it is "Y". -/
theorem extractData_cursor_first_bottom :
    (∀ (data : Json) (t : EResourceType),
      (extractData data t).next =
        ((preorderObjs data).find? (fun n => isMatch n "cursorType" "Bottom")).bind
          (fun n => Json.getF n "value")) ∧
    (extractData cursorEx EResourceType.TWEET_SEARCH).next = some (Json.str "Y") :=
  ⟨extractData_next, rfl⟩

/-- C5: for every response with HTTP status 200, `post` returns exactly the
JavaScript truthiness of the body: a non-empty string or non-zero number
yields `true`, while an empty string, `0`, `null` or `false` yields `false`
even though the status was 200. -/
theorem post_success_truthiness (s : String) (m : Int) (hs : s ≠ "") (hm : m ≠ 0) :
    (∀ (oracle : Oracle) (k : Nat) (body : Json),
      oracle k = Except.ok ⟨200, body⟩ → (post oracle k).1 = Except.ok (truthy body)) ∧
    (post (fun _ => Except.ok ⟨200, Json.str s⟩) 0).1 = Except.ok true ∧
    (post (fun _ => Except.ok ⟨200, Json.num m⟩) 0).1 = Except.ok true ∧
    (post (fun _ => Except.ok ⟨200, Json.str ""⟩) 0).1 = Except.ok false ∧
    (post (fun _ => Except.ok ⟨200, Json.num 0⟩) 0).1 = Except.ok false ∧
    (post (fun _ => Except.ok ⟨200, Json.null⟩) 0).1 = Except.ok false ∧
    (post (fun _ => Except.ok ⟨200, Json.bool false⟩) 0).1 = Except.ok false := by
  refine ⟨?_, ?_, ?_, rfl, rfl, rfl, rfl⟩
  · intro oracle k body h
    simp [post, request, h, handleHTTPError]
  · simp [post, request, handleHTTPError, truthy, hs]
  · simp [post, request, handleHTTPError, truthy, hm]

/-- C5 witness: the truthiness contract of `post` instantiated at the
non-empty string "x" and the non-zero number 1. -/
theorem post_success_truthiness_witness :
    (∀ (oracle : Oracle) (k : Nat) (body : Json),
      oracle k = Except.ok ⟨200, body⟩ → (post oracle k).1 = Except.ok (truthy body)) ∧
    (post (fun _ => Except.ok ⟨200, Json.str "x"⟩) 0).1 = Except.ok true ∧
    (post (fun _ => Except.ok ⟨200, Json.num 1⟩) 0).1 = Except.ok true ∧
    (post (fun _ => Except.ok ⟨200, Json.str ""⟩) 0).1 = Except.ok false ∧
    (post (fun _ => Except.ok ⟨200, Json.num 0⟩) 0).1 = Except.ok false ∧
    (post (fun _ => Except.ok ⟨200, Json.null⟩) 0).1 = Except.ok false ∧
    (post (fun _ => Except.ok ⟨200, Json.bool false⟩) 0).1 = Except.ok false :=
  post_success_truthiness "x" 1 (by decide) (by decide)

/-- C6: a response with status exactly 200 is passed through unchanged by the
status classification step regardless of body content, and a response whose
non-200 status is a key of the fixed status table fails with that table's
named reason. -/
theorem handleHTTPError_pass_and_table_failure (res : AxiosResponse) :
    (res.status = 200 → handleHTTPError res = Except.ok res) ∧
    (∀ reason, res.status ≠ 200 → EHttpStatus res.status = some reason →
      handleHTTPError res = Except.error (Failure.status reason)) := by
  constructor
  · intro h
    simp [handleHTTPError, h]
  · intro reason hne htab
    simp [handleHTTPError, hne, htab]

/-- C7 counterexample: the claim asserts that whenever the entity
discriminator matches no node, the cursor is also absent. On the body
`{cursorType: "Bottom", value: "X"}` with a user-shaped resource kind the
entity discriminator "User" matches no node (no `__typename` field exists
anywhere), so the entity sequence is empty — yet the cursor search still finds
the bottom-cursor node and the extracted cursor is "X", not absent. -/
theorem extractData_no_match_cursor_present :
    (extractData cursorOnlyTree EResourceType.USER_DETAILS).list = [] ∧
    (extractData cursorOnlyTree EResourceType.USER_DETAILS).next = some (Json.str "X") ∧
    (extractData cursorOnlyTree EResourceType.USER_DETAILS).next ≠ none :=
  ⟨rfl, rfl, by
    rw [show (extractData cursorOnlyTree EResourceType.USER_DETAILS).next =
      some (Json.str "X") from rfl]
    simp⟩

/-- C7 (amended): when the expected entity discriminator matches no node of
the body, extraction succeeds with an empty entity sequence — never an error,
never a placeholder — and the cursor is additionally absent when no node
carries `cursorType == "Bottom"` either (the two searches are independent). -/
theorem extractData_no_match_empty (data : Json) (t : EResourceType)
    (h : ∀ n ∈ preorderObjs data, isMatch n "__typename" (entityDiscriminator t) = false) :
    (extractData data t).list = [] ∧
    ((∀ n ∈ preorderObjs data, isMatch n "cursorType" "Bottom" = false) →
      (extractData data t).next = none) := by
  constructor
  · rw [extractData_list, findByFilter_eq_filter]
    exact List.filter_eq_nil_iff.mpr (by simpa using h)
  · intro hc
    rw [extractData_next]
    have : (preorderObjs data).find? (fun n => isMatch n "cursorType" "Bottom") = none :=
      List.find?_eq_none.mpr (by simpa using hc)
    simp [this]

/-- C7 witness: the amended claim at the body `{__typename: "User"}` requested
as a tweet-shaped resource — the discriminator "Tweet" matches nothing and no
cursor node exists, so both the entity sequence and the cursor are empty. -/
theorem extractData_no_match_empty_witness :
    (extractData (Json.obj [("__typename", Json.str "User")])
      EResourceType.TWEET_SEARCH).list = [] ∧
    ((∀ n ∈ preorderObjs (Json.obj [("__typename", Json.str "User")]),
        isMatch n "cursorType" "Bottom" = false) →
      (extractData (Json.obj [("__typename", Json.str "User")])
        EResourceType.TWEET_SEARCH).next = none) :=
  extractData_no_match_empty (Json.obj [("__typename", Json.str "User")])
    EResourceType.TWEET_SEARCH (by decide)

/-- C8: one call of `fetch` consumes exactly one transport outcome (the
outbound-call counter rises by exactly one — no retry, no second request), and
any failing call propagates the failure to the caller unchanged: a transport
error arrives as that transport failure, and a response rejected by the status
classifier arrives as exactly the classifier's failure. -/
theorem fetch_single_call_propagates_failures (oracle : Oracle) (t : EResourceType) (n : Nat) :
    (fetch oracle t n).2 = n + 1 ∧
    (∀ e, oracle n = Except.error e →
      (fetch oracle t n).1 = Except.error (Failure.transport e)) ∧
    (∀ res f, oracle n = Except.ok res → handleHTTPError res = Except.error f →
      (fetch oracle t n).1 = Except.error f) := by
  refine ⟨?_, ?_, ?_⟩
  · rcases h : oracle n with e | res
    · simp [fetch, request, h]
    · rcases h2 : handleHTTPError res with f | r <;> simp [fetch, request, h, h2]
  · intro e h
    simp [fetch, request, h]
  · intro res f h h2
    simp [fetch, request, h, h2]

/-- C9: `post` dispatches through the same `request` step as `fetch`, so a
response the status classifier rejects makes `post` propagate that exact
failure (it throws, it does not return `false`): `post` and `fetch` fail on
exactly the same outcomes with exactly the same failure, and a `false` return
can only arise from a response the classifier passed through whose body is
falsy. -/
theorem post_propagates_classified_failures (oracle : Oracle) (t : EResourceType) (n : Nat) :
    (∀ res f, oracle n = Except.ok res → handleHTTPError res = Except.error f →
      (post oracle n).1 = Except.error f) ∧
    (∀ f, (post oracle n).1 = Except.error f ↔ (fetch oracle t n).1 = Except.error f) ∧
    ((post oracle n).1 = Except.ok false →
      ∃ res, oracle n = Except.ok res ∧ handleHTTPError res = Except.ok res ∧
        truthy res.data = false) := by
  refine ⟨?_, ?_, ?_⟩
  · intro res f h h2
    simp [post, request, h, h2]
  · intro f
    rcases h : oracle n with e | res
    · simp [post, fetch, request, h]
    · rcases h2 : handleHTTPError res with f' | r <;> simp [post, fetch, request, h, h2]
  · intro hfalse
    rcases h : oracle n with e | res
    · simp [post, request, h] at hfalse
    · rcases h2 : handleHTTPError res with f' | r
      · simp [post, request, h, h2] at hfalse
      · have hr : r = res := by
          by_cases hc : res.status ≠ 200 ∧ (EHttpStatus res.status).isSome <;>
            simp [handleHTTPError, hc] at h2
          exact h2.symm
        refine ⟨res, rfl, hr ▸ h2, ?_⟩
        simp [post, request, h, h2] at hfalse
        exact hr ▸ hfalse

/-- C10: when the status classification step does not fail it returns exactly
the response it was given — it is the identity on its non-failing branch — so
the body `fetch` hands to the normalizer is the body the transport delivered,
unmodified. -/
theorem handleHTTPError_identity_fetch_body (res r : AxiosResponse) (t : EResourceType)
    (oracle : Oracle) (n : Nat) (h : handleHTTPError res = Except.ok r)
    (ho : oracle n = Except.ok res) :
    r = res ∧ (fetch oracle t n).1 = Except.ok (extractData res.data t) := by
  have hr : r = res := by
    by_cases hc : res.status ≠ 200 ∧ (EHttpStatus res.status).isSome <;>
      simp [handleHTTPError, hc] at h
    exact h.symm
  subst hr
  refine ⟨rfl, ?_⟩
  simp [fetch, request, ho, h]

/-- C10 witness: the pass-through instantiated at a 200 response with a null
body delivered by a one-outcome transport. -/
theorem handleHTTPError_identity_fetch_body_witness :
    (⟨200, Json.null⟩ : AxiosResponse) = ⟨200, Json.null⟩ ∧
    (fetch (fun _ => Except.ok ⟨200, Json.null⟩) EResourceType.USER_DETAILS 0).1 =
      Except.ok (extractData Json.null EResourceType.USER_DETAILS) :=
  handleHTTPError_identity_fetch_body ⟨200, Json.null⟩ ⟨200, Json.null⟩
    EResourceType.USER_DETAILS (fun _ => Except.ok ⟨200, Json.null⟩) 0 rfl rfl
